import Mathlib

/-!
Shallow embedding of the role-gated entity-management core of the
Staff_Workload repository (Staff, TaskRec and Course modules).

Each React handler is modelled as a pure function from the module state
(and its inputs) to the new module state together with a trace of the
side effects it issues, in source order:
`Evt.save records` models a `localStorage.setItem` of the serialized
collection, and `Evt.notify p` models a `setPopup` call.

The persisted value under a key is modelled by its parse outcome:
`none` is an absent key (`localStorage.getItem` returned null),
`some StoredContent.malformed` is a non-empty string on which
`JSON.parse` throws, and `some (StoredContent.wellFormed l)` is a
string that parses to the record list `l`.  Kind-specific attributes
beyond the fields the core logic reads are carried as a key-value bag
of JSON leaves (`JVal`), mirroring the source objects.
-/

/-- A JSON leaf value: the source records hold string, number and
boolean leaves.  Decimal literals such as 3.00 are modelled by their
integer value. -/
inductive JVal : Type
  | str (s : String)
  | num (n : Int)
  | bool (b : Bool)
deriving Repr, DecidableEq

/-- The popup state set by `setPopup`.  Source fields are `show`,
`message` and `type`; they are named `visible`, `message` and `kind`
here because `show` and `type` clash with Lean syntax. -/
structure Popup where
  visible : Bool
  message : String
  kind : String
deriving Repr, DecidableEq

/-- Parse outcome of the string stored under a localStorage key. -/
inductive StoredContent (α : Type) : Type
  | malformed : StoredContent α
  | wellFormed (records : List α) : StoredContent α
deriving Repr, DecidableEq

/-- A side effect issued by a handler, in source order:
a `localStorage.setItem` of the collection, or a `setPopup`. -/
inductive Evt (α : Type) : Type
  | save (records : List α) : Evt α
  | notify (p : Popup) : Evt α
deriving Repr, DecidableEq

/-- The uncaught JavaScript exception raised by `JSON.parse` on
malformed content. -/
inductive JsError : Type
  | syntaxError : JsError
deriving Repr, DecidableEq

/-- Result of a module load effect: the two state arrays it sets and
the storage value after it ran. -/
structure LoadResult (α : Type) where
  records : List α
  filtered : List α
  stored : Option (StoredContent α)
deriving Repr, DecidableEq

/-- An uploaded file, reduced to the fields the upload handler reads. -/
structure JsFile where
  ftype : String
  size : Nat
deriving Repr, DecidableEq

/-- Model of `Math.max(...l)` on a natural-number list: folding the
maximum with the neutral element 0 agrees with `Math.max` on every
non-empty natural-number list, and the call sites guard the empty
case. -/
def jsMaxNat (l : List Nat) : Nat :=
  l.foldr Nat.max 0

/-- The shared `maxId + 1` computation of the create handlers:
`records.length > 0 ? Math.max(...records.map(r => r.id)) : 0` plus 1. -/
def nextPrimaryId (ids : List Nat) : Nat :=
  (if ids.length > 0 then jsMaxNat ids else 0) + 1

/-- Value of a digit run, as `parseInt` computes it. -/
def digitsVal (ds : List Char) : Nat :=
  ds.foldl (fun acc c => acc * 10 + (c.toNat - '0'.toNat)) 0

/-- First maximal digit run of a character list, as matched by the
regular expression used in `generateTaskId` and `generateCourseId`. -/
def firstDigitRun : List Char → Option (List Char)
  | [] => none
  | c :: cs => if c.isDigit then some (c :: cs.takeWhile Char.isDigit) else firstDigitRun cs

/-- Model of `s.match(regex-digit-run)` followed by `parseInt`, with 0
when there is no match (and also when the field is absent, since the
source then short-circuits through optional chaining to 0). -/
def extractNum (s : String) : Nat :=
  match firstDigitRun s.data with
  | some ds => digitsVal ds
  | none => 0

/-- Model of JavaScript trim over the character list (kernel
reducible, unlike the byte-position based library trim). -/
def jsTrim (s : String) : String :=
  String.mk (((s.data.dropWhile Char.isWhitespace).reverse.dropWhile Char.isWhitespace).reverse)

/-- Model of JavaScript `s.toLowerCase()` over the character list. -/
def jsToLower (s : String) : String :=
  String.mk (s.data.map Char.toLower)

/-- Model of JavaScript `String.prototype.padStart(width, c)`. -/
def padStart (width : Nat) (c : Char) (s : String) : String :=
  String.mk (List.replicate (width - s.length) c) ++ s

/-- Character-list version of JavaScript `startsWith` (first argument
is the candidate pattern). -/
def charsStartWith : List Char → List Char → Bool
  | [], _ => true
  | _ :: _, [] => false
  | c :: cs, d :: ds => c == d && charsStartWith cs ds

/-- Helper loop for substring containment over character lists. -/
def charsContain (l sub : List Char) : Bool :=
  charsStartWith sub l ||
    (match l with
     | [] => false
     | _ :: t => charsContain t sub)

/-- Model of JavaScript `s.includes(sub)`. -/
def jsIncludes (s sub : String) : Bool :=
  charsContain s.data sub.data

/-- A staff record.  The core logic reads `id`, `name`, `email`,
`department` and `profilePicture`; the remaining attributes
(staffId, position, hours, ...) are carried opaquely in `attrs`. -/
structure Staff where
  id : Nat
  name : String
  email : String
  department : String
  profilePicture : String
  attrs : List (String × JVal)
deriving Repr, DecidableEq

/-- The object passed to `onStaffAdded` by the staff form: identical to
a staff record except that `id` may be absent (undefined). -/
structure StaffDraft where
  id : Option Nat
  name : String
  email : String
  department : String
  profilePicture : String
  attrs : List (String × JVal)
deriving Repr, DecidableEq

/-- Materialize a draft with the id the create handler assigned
(the source mutates `newStaff.id` in place). -/
def mkStaff (d : StaffDraft) (assignedId : Nat) : Staff :=
  { id := assignedId, name := d.name, email := d.email, department := d.department,
    profilePicture := d.profilePicture, attrs := d.attrs }

/-- State of the StaffManagement component. -/
structure StaffState where
  userRole : String
  currentUserEmail : String
  activeTab : String
  selectedDepartment : String
  searchQuery : String
  staffMembers : List Staff
  filteredStaff : List Staff
  editingStaff : Option Staff
  popup : Popup
  selectedStaff : Option Staff
  stored : Option (StoredContent Staff)
deriving Repr, DecidableEq

/-- A task record.  The core logic reads `id`, `taskId`, `taskName`
and `description`; the remaining attributes are carried in `attrs`. -/
structure TaskRec where
  id : Nat
  taskId : String
  taskName : String
  description : String
  attrs : List (String × JVal)
deriving Repr, DecidableEq

/-- The TaskManagement form state (`formData`): `taskId`, `taskName`
and `description` are read by the handlers, the other form fields
(category, hoursNeeded, ...) are carried in `attrs`. -/
structure TaskForm where
  taskId : String
  taskName : String
  description : String
  attrs : List (String × JVal)
deriving Repr, DecidableEq

/-- State of the TaskManagement component. -/
structure TaskState where
  userRole : String
  activeTab : String
  tasks : List TaskRec
  filteredTasks : List TaskRec
  editingTask : Option TaskRec
  popup : Popup
  selectedTask : Option TaskRec
  formData : TaskForm
  stored : Option (StoredContent TaskRec)
deriving Repr, DecidableEq

/-- A course record.  The core logic reads `id`, `courseId`,
`courseCode`, `courseName` and `semester`; the rest is in `attrs`.
A record without a `courseId` field (such as the sample data) is
modelled with the empty string, which the digit-run extraction treats
exactly like an undefined field (both yield 0). -/
structure Course where
  id : Nat
  courseId : String
  courseCode : String
  courseName : String
  semester : String
  attrs : List (String × JVal)
deriving Repr, DecidableEq

/-- The CourseManagement form state (`formData`): the handlers read
`courseId`, `courseCode`, `courseName`, `requiredQualification` and
`semester`; the other form fields are carried in `attrs`. -/
structure CourseForm where
  courseId : String
  courseCode : String
  courseName : String
  requiredQualification : String
  semester : String
  attrs : List (String × JVal)
deriving Repr, DecidableEq

/-- State of the CourseManagement component. -/
structure CourseState where
  userRole : String
  activeTab : String
  selectedSemester : String
  courses : List Course
  filteredCourses : List Course
  editingCourse : Option Course
  popup : Popup
  selectedCourse : Option Course
  formData : CourseForm
  stored : Option (StoredContent Course)
deriving Repr, DecidableEq

/-- `generateTaskId` from TaskManagement: maximum first digit run over
the existing `taskId` fields, plus one, zero-padded to width 3, with
prefix T. -/
def generateTaskId (tasks : List TaskRec) : String :=
  let maxId := if tasks.length > 0 then jsMaxNat (tasks.map (fun t => extractNum t.taskId)) else 0
  "T" ++ padStart 3 '0' (toString (maxId + 1))

/-- `generateCourseId` from CourseManagement: same computation over
`courseId` fields, with prefix COURSE. -/
def generateCourseId (courses : List Course) : String :=
  let maxId := if courses.length > 0 then jsMaxNat (courses.map (fun c => extractNum c.courseId)) else 0
  "COURSE" ++ padStart 3 '0' (toString (maxId + 1))

/-- The fixed 5-record staff sample set seeded on first run. -/
def sampleStaffData : List Staff :=
  [ { id := 1, name := "Dr. John Smith", email := "john.smith@university.edu",
      department := "Computer Science", profilePicture := "",
      attrs := [("position", JVal.str "Professor"), ("teachingHours", JVal.num 12),
                ("researchHours", JVal.num 6), ("totalHours", JVal.num 18)] },
    { id := 2, name := "Dr. Sarah Johnson", email := "sarah.johnson@university.edu",
      department := "Mathematics", profilePicture := "",
      attrs := [("position", JVal.str "Associate Professor"), ("teachingHours", JVal.num 10),
                ("researchHours", JVal.num 5), ("totalHours", JVal.num 15)] },
    { id := 3, name := "Dr. Michael Williams", email := "michael.williams@university.edu",
      department := "Physics", profilePicture := "",
      attrs := [("position", JVal.str "Professor"), ("teachingHours", JVal.num 15),
                ("researchHours", JVal.num 5), ("totalHours", JVal.num 20)] },
    { id := 4, name := "Dr. Emily Brown", email := "emily.brown@university.edu",
      department := "Computer Science", profilePicture := "",
      attrs := [("position", JVal.str "Assistant Professor"), ("teachingHours", JVal.num 8),
                ("researchHours", JVal.num 4), ("totalHours", JVal.num 12)] },
    { id := 5, name := "Dr. David Davis", email := "david.davis@university.edu",
      department := "Mathematics", profilePicture := "",
      attrs := [("position", JVal.str "Associate Professor"), ("teachingHours", JVal.num 11),
                ("researchHours", JVal.num 5), ("totalHours", JVal.num 16)] } ]

/-- The fixed 3-record task sample set seeded on first run. -/
def sampleTasksData : List TaskRec :=
  [ { id := 1, taskId := "T001", taskName := "Review Course Materials",
      description := "Review and update course materials for CS101",
      attrs := [("category", JVal.str "academic"), ("hoursNeeded", JVal.str "40"),
                ("noOfStaff", JVal.str "2"),
                ("staffQualificationCriteria", JVal.str "PhD in Computer Science, 5+ years teaching experience"),
                ("department", JVal.str "Computer Science"),
                ("programme", JVal.str "Bachelor of Science"), ("module", JVal.str "Module 1")] },
    { id := 2, taskId := "T002", taskName := "Prepare Exam Questions",
      description := "Create final exam questions for MATH101",
      attrs := [("category", JVal.str "assessment"), ("hoursNeeded", JVal.str "20"),
                ("noOfStaff", JVal.str "1"),
                ("staffQualificationCriteria", JVal.str "PhD in Mathematics"),
                ("department", JVal.str "Mathematics"),
                ("programme", JVal.str "Bachelor of Science"), ("module", JVal.str "Module 2")] },
    { id := 3, taskId := "T003", taskName := "Update Syllabus",
      description := "Update syllabus for Spring 2024 semester",
      attrs := [("category", JVal.str "administrative"), ("hoursNeeded", JVal.str "15"),
                ("noOfStaff", JVal.str "1"),
                ("staffQualificationCriteria", JVal.str "Senior lecturer or above"),
                ("department", JVal.str "Computer Science"),
                ("programme", JVal.str "Master of Science"), ("module", JVal.str "Module 3")] } ]

/-- `loadStaffData`: on an absent key it seeds the sample data and
persists it; on a stored value it runs `JSON.parse` with no
try/catch, so a malformed value raises an uncaught exception (modelled
by `Except.error`) and nothing is seeded or re-persisted. -/
def loadStaffData (stored : Option (StoredContent Staff)) : Except JsError (LoadResult Staff) :=
  match stored with
  | none =>
      Except.ok { records := sampleStaffData, filtered := sampleStaffData,
                  stored := some (StoredContent.wellFormed sampleStaffData) }
  | some StoredContent.malformed => Except.error JsError.syntaxError
  | some (StoredContent.wellFormed l) =>
      Except.ok { records := l, filtered := l, stored := some (StoredContent.wellFormed l) }

/-- `loadTasksData`: same shape as `loadStaffData`, over the task key. -/
def loadTasksData (stored : Option (StoredContent TaskRec)) : Except JsError (LoadResult TaskRec) :=
  match stored with
  | none =>
      Except.ok { records := sampleTasksData, filtered := sampleTasksData,
                  stored := some (StoredContent.wellFormed sampleTasksData) }
  | some StoredContent.malformed => Except.error JsError.syntaxError
  | some (StoredContent.wellFormed l) =>
      Except.ok { records := l, filtered := l, stored := some (StoredContent.wellFormed l) }

/-- The staff filter effect: department equality unless the sentinel
All is selected, then a case-insensitive name-or-email substring
match when the trimmed query is non-empty (the match itself uses the
untrimmed lowercased query, as in the source). -/
def filterStaffList (selectedDepartment searchQuery : String) (staffMembers : List Staff) :
    List Staff :=
  let filtered := staffMembers
  let filtered :=
    if selectedDepartment ≠ "All" then
      filtered.filter (fun staff => decide (staff.department = selectedDepartment))
    else filtered
  let filtered :=
    if jsTrim searchQuery ≠ "" then
      let query := jsToLower searchQuery
      filtered.filter (fun staff =>
        jsIncludes (jsToLower staff.name) query || jsIncludes (jsToLower staff.email) query)
    else filtered
  filtered

/-- The course filter effect: semester equality unless the sentinel
All is selected. -/
def filterCourseList (selectedSemester : String) (courses : List Course) : List Course :=
  let filtered := courses
  let filtered :=
    if selectedSemester ≠ "All" then
      filtered.filter (fun course => decide (course.semester = selectedSemester))
    else filtered
  filtered

/-- JavaScript falsiness of a JSON leaf (empty string, 0, false). -/
def jsFalsy : JVal → Bool
  | JVal.str s => s == ""
  | JVal.num n => n == 0
  | JVal.bool b => !b

/-- Lookup of an attribute with a JavaScript `value || dflt` fallback:
an absent or falsy stored value yields the default. -/
def attrOrDefault (bag : List (String × JVal)) (k : String) (dflt : JVal) : JVal :=
  match bag.find? (fun kv => kv.1 == k) with
  | some kv => if jsFalsy kv.2 then dflt else kv.2
  | none => dflt

/-- Model of the JavaScript object spread `[...base, ...over]` on the
attribute bags: keys of `base` keep their position but take the value
from `over` when present there, and keys only in `over` are appended. -/
def mergeAttrs (base over : List (String × JVal)) : List (String × JVal) :=
  base.map (fun kv =>
    match over.find? (fun kv2 => kv2.1 == kv.1) with
    | some kv2 => (kv.1, kv2.2)
    | none => kv)
  ++ over.filter (fun kv2 => !(base.any (fun kv => kv.1 == kv2.1)))

/-- `currentUserProfile` from StaffManagement: the record whose email
matches the current user email case-insensitively (only when an email
is present), else — for the Staff role on a non-empty
collection — the first record, else null. -/
def currentUserProfile (st : StaffState) : Option Staff :=
  match st.staffMembers.find? (fun staff =>
      st.currentUserEmail != "" && jsToLower staff.email == jsToLower st.currentUserEmail) with
  | some s => some s
  | none =>
      if st.userRole == "Staff" && st.staffMembers.length > 0 then st.staffMembers.head?
      else none

/-- `handleStaffAdded` from StaffManagement.  The `action` argument is
the optional second parameter (the cancel path passes the string
cancel).  A draft whose `id` is absent or 0 (JavaScript falsy) gets
`maxId + 1`; any other draft id is kept unchanged.  No role check is
performed anywhere in this handler. -/
def handleStaffAdded (st : StaffState) (newStaff : Option StaffDraft) (action : Option String) :
    StaffState × List (Evt Staff) :=
  if action = some "cancel" then
    ({ st with editingStaff := none }, [])
  else
    match newStaff with
    | none => (st, [])
    | some d =>
        let assignedId :=
          match d.id with
          | some n => if n = 0 then nextPrimaryId (st.staffMembers.map (fun s => s.id)) else n
          | none => nextPrimaryId (st.staffMembers.map (fun s => s.id))
        let added := mkStaff d assignedId
        let updatedStaff := st.staffMembers ++ [added]
        let p : Popup := { visible := true, message := "Staff member added successfully!", kind := "success" }
        ({ st with staffMembers := updatedStaff, filteredStaff := updatedStaff,
                   stored := some (StoredContent.wellFormed updatedStaff),
                   activeTab := "view-staff", popup := p },
         [Evt.save updatedStaff, Evt.notify p])

/-- `handleStaffUpdated` from StaffManagement: replaces the record with
the matching id in place, persists, leaves edit mode, and notifies.
No role check is performed in this handler. -/
def handleStaffUpdated (st : StaffState) (updatedStaff : Staff) : StaffState × List (Evt Staff) :=
  let updatedList := st.staffMembers.map (fun staff =>
    if staff.id = updatedStaff.id then updatedStaff else staff)
  let p : Popup := { visible := true, message := "Staff record updated", kind := "success" }
  ({ st with staffMembers := updatedList, filteredStaff := updatedList,
             stored := some (StoredContent.wellFormed updatedList),
             editingStaff := none, activeTab := "view-staff", popup := p },
   [Evt.save updatedList, Evt.notify p])

/-- `handleDeleteStaff` from StaffManagement: role-gated, then gated on
the browser confirm dialog (modelled by `confirmDelete`); removes the
records with the given id, persists, clears the Detail selection when
it pointed at that id, and notifies with the delete kind. -/
def handleDeleteStaff (st : StaffState) (confirmDelete : Bool) (id : Nat) :
    StaffState × List (Evt Staff) :=
  if st.userRole ≠ "Administrator" then
    let p : Popup := { visible := true,
                       message := "You do not have permission to delete staff members.",
                       kind := "error" }
    ({ st with popup := p }, [Evt.notify p])
  else if confirmDelete then
    let updatedList := st.staffMembers.filter (fun staff => decide (staff.id ≠ id))
    let clearedSelection :=
      match st.selectedStaff with
      | some sel => if sel.id = id then none else some sel
      | none => none
    let p : Popup := { visible := true, message := "Record deleted", kind := "delete" }
    ({ st with staffMembers := updatedList, filteredStaff := updatedList,
               stored := some (StoredContent.wellFormed updatedList),
               selectedStaff := clearedSelection, popup := p },
     [Evt.save updatedList, Evt.notify p])
  else (st, [])

/-- `handleEditStaff` from StaffManagement: role-gated entry into edit
mode; no persistence. -/
def handleEditStaff (st : StaffState) (staff : Staff) : StaffState × List (Evt Staff) :=
  if st.userRole ≠ "Administrator" then
    let p : Popup := { visible := true,
                       message := "You do not have permission to edit staff members.",
                       kind := "error" }
    ({ st with popup := p }, [Evt.notify p])
  else
    ({ st with editingStaff := some staff, activeTab := "add-staff" }, [])

/-- `handleProfilePictureUpload` from StaffManagement, with the
asynchronous FileReader collapsed: `readResult` is the data URL the
reader would deliver to `onloadend`.  Permission (Staff may only
target their own profile), media-type and 5 MB size checks happen
before the merge; on success the record is merged, persisted, the live
Detail reference is updated, and a success notification is shown. -/
def handleProfilePictureUpload (st : StaffState) (file : Option JsFile) (readResult : String) :
    StaffState × List (Evt Staff) :=
  match file, st.selectedStaff with
  | some f, some sel =>
      if (st.userRole == "Staff" &&
          (match currentUserProfile st with
           | some cur => sel.id != cur.id
           | none => false)) = true then
        let p : Popup := { visible := true,
                           message := "You can only upload your own profile picture.",
                           kind := "error" }
        ({ st with popup := p }, [Evt.notify p])
      else if !(f.ftype.startsWith "image/") then
        let p : Popup := { visible := true, message := "Please select a valid image file.",
                           kind := "error" }
        ({ st with popup := p }, [Evt.notify p])
      else if f.size > 5 * 1024 * 1024 then
        let p : Popup := { visible := true, message := "Image size should be less than 5MB.",
                           kind := "error" }
        ({ st with popup := p }, [Evt.notify p])
      else
        let updatedStaff := { sel with profilePicture := readResult }
        let updatedList := st.staffMembers.map (fun staff =>
          if staff.id = sel.id then updatedStaff else staff)
        let p : Popup := { visible := true, message := "Profile picture updated successfully!",
                           kind := "success" }
        ({ st with staffMembers := updatedList, filteredStaff := updatedList,
                   stored := some (StoredContent.wellFormed updatedList),
                   selectedStaff := some updatedStaff, popup := p },
         [Evt.save updatedList, Evt.notify p])
  | _, _ => (st, [])

/-- The create path of `AddStaffForm.handleSubmit` composed with the
parent callback: validates name and email, then submits a draft whose
`id` is undefined (`editingStaff` is null on the create path), so the
parent generates a fresh id.  A validation failure only sets the local
error banner of the form; the parent state is untouched. -/
def addStaffViaForm (st : StaffState) (f : StaffDraft) : StaffState × List (Evt Staff) :=
  if jsTrim f.name = "" ∨ jsTrim f.email = "" then (st, [])
  else handleStaffAdded st (some { f with id := none }) none

/-- Default task form attribute values used by the form resets. -/
def defaultTaskFormAttrs : List (String × JVal) :=
  [("category", JVal.str "general"), ("hoursNeeded", JVal.str ""), ("noOfStaff", JVal.str ""),
   ("staffQualificationCriteria", JVal.str ""), ("department", JVal.str ""),
   ("programme", JVal.str ""), ("module", JVal.str "")]

/-- The task form reset performed after a successful create or update:
the fresh secondary id is generated against the `tasks` closure of the
running handler, i.e. the collection as it was when the handler
started. -/
def resetTaskForm (tasks : List TaskRec) : TaskForm :=
  { taskId := generateTaskId tasks, taskName := "", description := "",
    attrs := defaultTaskFormAttrs }

/-- Model of the update merge `[...task, ...formData]` (object spread):
the id comes from the record (the form has no id field), every other
field from the form, attribute bags merged key by key. -/
def mergeTaskForm (t : TaskRec) (f : TaskForm) : TaskRec :=
  { id := t.id, taskId := f.taskId, taskName := f.taskName, description := f.description,
    attrs := mergeAttrs t.attrs f.attrs }

/-- `handleTaskAdded` from TaskManagement: validates the required
fields, assigns `maxId + 1`, honors a non-empty form `taskId` (else
generates one), appends, persists, resets the form and notifies.
No role check is performed anywhere in this handler. -/
def handleTaskAdded (st : TaskState) : TaskState × List (Evt TaskRec) :=
  if jsTrim st.formData.taskName = "" ∨ jsTrim st.formData.description = "" then
    let p : Popup := { visible := true, message := "Please fill in all required fields.",
                       kind := "error" }
    ({ st with popup := p }, [Evt.notify p])
  else
    let newTask : TaskRec :=
      { id := nextPrimaryId (st.tasks.map (fun t => t.id)),
        taskId := if st.formData.taskId ≠ "" then st.formData.taskId else generateTaskId st.tasks,
        taskName := st.formData.taskName,
        description := st.formData.description,
        attrs := st.formData.attrs }
    let updatedTasks := st.tasks ++ [newTask]
    let p : Popup := { visible := true, message := "Task added successfully!", kind := "success" }
    ({ st with tasks := updatedTasks, filteredTasks := updatedTasks,
               stored := some (StoredContent.wellFormed updatedTasks),
               activeTab := "view-tasks", formData := resetTaskForm st.tasks, popup := p },
     [Evt.save updatedTasks, Evt.notify p])

/-- `handleTaskUpdated` from TaskManagement: validates, replaces the
record matching the id of the task being edited by the merged form
data, persists, leaves edit mode, resets the form and notifies.
No role check is performed anywhere in this handler. -/
def handleTaskUpdated (st : TaskState) (editingTask : TaskRec) : TaskState × List (Evt TaskRec) :=
  if jsTrim st.formData.taskName = "" ∨ jsTrim st.formData.description = "" then
    let p : Popup := { visible := true, message := "Please fill in all required fields.",
                       kind := "error" }
    ({ st with popup := p }, [Evt.notify p])
  else
    let updatedList := st.tasks.map (fun task =>
      if task.id = editingTask.id then mergeTaskForm task st.formData else task)
    let p : Popup := { visible := true, message := "Task updated successfully!", kind := "success" }
    ({ st with tasks := updatedList, filteredTasks := updatedList,
               stored := some (StoredContent.wellFormed updatedList),
               editingTask := none, activeTab := "view-tasks",
               formData := resetTaskForm st.tasks, popup := p },
     [Evt.save updatedList, Evt.notify p])

/-- `handleDeleteTask` from TaskManagement: role-gated, then gated on
the confirm dialog; removes, persists, clears the Detail selection
when it pointed at the removed id, and notifies with the delete kind. -/
def handleDeleteTask (st : TaskState) (confirmDelete : Bool) (id : Nat) :
    TaskState × List (Evt TaskRec) :=
  if st.userRole ≠ "Administrator" then
    let p : Popup := { visible := true, message := "You do not have permission to delete tasks.",
                       kind := "error" }
    ({ st with popup := p }, [Evt.notify p])
  else if confirmDelete then
    let updatedList := st.tasks.filter (fun task => decide (task.id ≠ id))
    let clearedSelection :=
      match st.selectedTask with
      | some sel => if sel.id = id then none else some sel
      | none => none
    let p : Popup := { visible := true, message := "Task deleted successfully!", kind := "delete" }
    ({ st with tasks := updatedList, filteredTasks := updatedList,
               stored := some (StoredContent.wellFormed updatedList),
               selectedTask := clearedSelection, popup := p },
     [Evt.save updatedList, Evt.notify p])
  else (st, [])

/-- Form attribute values populated by `handleEditTask` from the task
being edited, with the `value || default` fallbacks of the source. -/
def taskEditFormAttrs (task : TaskRec) : List (String × JVal) :=
  [("category", attrOrDefault task.attrs "category" (JVal.str "general")),
   ("hoursNeeded", attrOrDefault task.attrs "hoursNeeded" (JVal.str "")),
   ("noOfStaff", attrOrDefault task.attrs "noOfStaff" (JVal.str "")),
   ("staffQualificationCriteria", attrOrDefault task.attrs "staffQualificationCriteria" (JVal.str "")),
   ("department", attrOrDefault task.attrs "department" (JVal.str "")),
   ("programme", attrOrDefault task.attrs "programme" (JVal.str "")),
   ("module", attrOrDefault task.attrs "module" (JVal.str ""))]

/-- `handleEditTask` from TaskManagement: role-gated entry into edit
mode; populates the form from the record; no persistence. -/
def handleEditTask (st : TaskState) (task : TaskRec) : TaskState × List (Evt TaskRec) :=
  if st.userRole ≠ "Administrator" then
    let p : Popup := { visible := true, message := "You do not have permission to edit tasks.",
                       kind := "error" }
    ({ st with popup := p }, [Evt.notify p])
  else
    ({ st with editingTask := some task,
               formData :=
                 { taskId := if task.taskId ≠ "" then task.taskId else generateTaskId st.tasks,
                   taskName := task.taskName, description := task.description,
                   attrs := taskEditFormAttrs task },
               activeTab := "add-task" }, [])

/-- `handleSubmit` of the task form: update when editing, else create. -/
def handleSubmitTask (st : TaskState) : TaskState × List (Evt TaskRec) :=
  match st.editingTask with
  | some e => handleTaskUpdated st e
  | none => handleTaskAdded st

/-- Default course form attribute values used by the form resets. -/
def defaultCourseFormAttrs : List (String × JVal) :=
  [("department", JVal.str "Faculty of Computing"), ("credits", JVal.num 3),
   ("contactHoursWeek", JVal.num 3), ("canCombineSections", JVal.bool false),
   ("courseType", JVal.str "lecture"), ("expectedEnrollment", JVal.num 50),
   ("maxStudentsSection", JVal.num 50), ("priority", JVal.num 5)]

/-- The course form reset performed after a successful create or
update, with the fresh secondary id generated against the collection
as it was when the handler started. -/
def resetCourseForm (courses : List Course) : CourseForm :=
  { courseId := generateCourseId courses, courseCode := "", courseName := "",
    requiredQualification := "", semester := "Semester 1", attrs := defaultCourseFormAttrs }

/-- Model of the update merge `[...course, ...formData]` for courses. -/
def mergeCourseForm (c : Course) (f : CourseForm) : Course :=
  { id := c.id, courseId := f.courseId, courseCode := f.courseCode, courseName := f.courseName,
    semester := f.semester,
    attrs := mergeAttrs c.attrs
      (("requiredQualification", JVal.str f.requiredQualification) :: f.attrs) }

/-- `handleCourseAdded` from CourseManagement: validates the required
fields, assigns `maxId + 1`, honors a non-empty form `courseId` (else
generates one), appends, persists, resets the form and notifies.
No role check is performed anywhere in this handler. -/
def handleCourseAdded (st : CourseState) : CourseState × List (Evt Course) :=
  if jsTrim st.formData.courseCode = "" ∨ jsTrim st.formData.courseName = "" ∨
      jsTrim st.formData.requiredQualification = "" then
    let p : Popup := { visible := true, message := "Please fill in all required fields.",
                       kind := "error" }
    ({ st with popup := p }, [Evt.notify p])
  else
    let newCourse : Course :=
      { id := nextPrimaryId (st.courses.map (fun c => c.id)),
        courseId := if st.formData.courseId ≠ "" then st.formData.courseId
                    else generateCourseId st.courses,
        courseCode := st.formData.courseCode,
        courseName := st.formData.courseName,
        semester := st.formData.semester,
        attrs := ("requiredQualification", JVal.str st.formData.requiredQualification)
                   :: st.formData.attrs }
    let updatedCourses := st.courses ++ [newCourse]
    let p : Popup := { visible := true, message := "Course added successfully!", kind := "success" }
    ({ st with courses := updatedCourses, filteredCourses := updatedCourses,
               stored := some (StoredContent.wellFormed updatedCourses),
               activeTab := "view-courses", formData := resetCourseForm st.courses, popup := p },
     [Evt.save updatedCourses, Evt.notify p])

/-- `handleCourseUpdated` from CourseManagement: validates, replaces
the record matching the edited id by the merged form data, persists,
leaves edit mode, resets the form and notifies.  No role check is
performed anywhere in this handler. -/
def handleCourseUpdated (st : CourseState) (editingCourse : Course) :
    CourseState × List (Evt Course) :=
  if jsTrim st.formData.courseCode = "" ∨ jsTrim st.formData.courseName = "" ∨
      jsTrim st.formData.requiredQualification = "" then
    let p : Popup := { visible := true, message := "Please fill in all required fields.",
                       kind := "error" }
    ({ st with popup := p }, [Evt.notify p])
  else
    let updatedList := st.courses.map (fun course =>
      if course.id = editingCourse.id then mergeCourseForm course st.formData else course)
    let p : Popup := { visible := true, message := "Course updated successfully!",
                       kind := "success" }
    ({ st with courses := updatedList, filteredCourses := updatedList,
               stored := some (StoredContent.wellFormed updatedList),
               editingCourse := none, activeTab := "view-courses",
               formData := resetCourseForm st.courses, popup := p },
     [Evt.save updatedList, Evt.notify p])

/-- `handleDeleteCourse` from CourseManagement: role-gated, then gated
on the confirm dialog; removes, persists, clears the Detail selection
when it pointed at the removed id, and notifies with the delete kind. -/
def handleDeleteCourse (st : CourseState) (confirmDelete : Bool) (id : Nat) :
    CourseState × List (Evt Course) :=
  if st.userRole ≠ "Administrator" then
    let p : Popup := { visible := true, message := "You do not have permission to delete courses.",
                       kind := "error" }
    ({ st with popup := p }, [Evt.notify p])
  else if confirmDelete then
    let updatedList := st.courses.filter (fun course => decide (course.id ≠ id))
    let clearedSelection :=
      match st.selectedCourse with
      | some sel => if sel.id = id then none else some sel
      | none => none
    let p : Popup := { visible := true, message := "Course deleted successfully!",
                       kind := "delete" }
    ({ st with courses := updatedList, filteredCourses := updatedList,
               stored := some (StoredContent.wellFormed updatedList),
               selectedCourse := clearedSelection, popup := p },
     [Evt.save updatedList, Evt.notify p])
  else (st, [])

/-- `handleEditCourse` from CourseManagement: role-gated entry into
edit mode; populates the form from the record with the source
fallback chain; no persistence. -/
def handleEditCourse (st : CourseState) (course : Course) : CourseState × List (Evt Course) :=
  if st.userRole ≠ "Administrator" then
    let p : Popup := { visible := true, message := "You do not have permission to edit courses.",
                       kind := "error" }
    ({ st with popup := p }, [Evt.notify p])
  else
    ({ st with editingCourse := some course,
               formData :=
                 { courseId := if course.courseId ≠ "" then course.courseId
                               else if course.courseCode ≠ "" then course.courseCode
                               else generateCourseId st.courses,
                   courseCode := course.courseCode,
                   courseName := course.courseName,
                   requiredQualification :=
                     (match attrOrDefault course.attrs "requiredQualification" (JVal.str "") with
                      | JVal.str s => s
                      | _ => ""),
                   semester := if course.semester ≠ "" then course.semester else "Semester 1",
                   attrs :=
                     [("department", attrOrDefault course.attrs "department"
                         (JVal.str "Faculty of Computing")),
                      ("credits", attrOrDefault course.attrs "credits" (JVal.num 3)),
                      ("contactHoursWeek", attrOrDefault course.attrs "contactHoursWeek"
                         (attrOrDefault course.attrs "contactHours" (JVal.num 3))),
                      ("canCombineSections", attrOrDefault course.attrs "canCombineSections"
                         (JVal.bool false)),
                      ("courseType", attrOrDefault course.attrs "courseType" (JVal.str "lecture")),
                      ("expectedEnrollment", attrOrDefault course.attrs "expectedEnrollment"
                         (JVal.num 50)),
                      ("maxStudentsSection", attrOrDefault course.attrs "maxStudentsSection"
                         (JVal.num 50)),
                      ("priority", attrOrDefault course.attrs "priority" (JVal.num 5))] },
               activeTab := "add-course" }, [])

/-- `handleSubmit` of the course form: update when editing, else create. -/
def handleSubmitCourse (st : CourseState) : CourseState × List (Evt Course) :=
  match st.editingCourse with
  | some e => handleCourseUpdated st e
  | none => handleCourseAdded st

/-- The ordering property of claim C8, over a handler trace: every
success or delete notification is preceded by a save, and that save
wrote the collection the handler left in the state. -/
def saveBeforeNotifyOk {α : Type} (tr : List (Evt α)) (finalRecords : List α) : Prop :=
  ∀ (j : Nat) (p : Popup), tr[j]? = some (Evt.notify p) →
    (p.kind = "success" ∨ p.kind = "delete") →
    ∃ i : Nat, i < j ∧ tr[i]? = some (Evt.save finalRecords)

/-- Specification-side formulation of the secondary-id rule, written
from the claim wording: extract the first maximal digit run of each
existing secondary id (0 when there are no digits), take the maximum,
add one, left-pad with zeros to the given width, prepend the prefix. -/
def nextSecondaryId (ids : List String) (prefixStr : String) (width : Nat) : String :=
  prefixStr ++ padStart width '0' (toString (jsMaxNat (ids.map extractNum) + 1))

/-- A dismissed popup, the initial popup state of every module. -/
def popupNone : Popup := { visible := false, message := "", kind := "success" }

/-- A concrete course form whose required fields are filled. -/
def sampleCourseForm : CourseForm :=
  { courseId := "", courseCode := "CS105", courseName := "Programming 1",
    requiredQualification := "None", semester := "Semester 1", attrs := defaultCourseFormAttrs }

/-- A minimal concrete course record with a given primary id. -/
def cRec (i : Nat) : Course :=
  { id := i, courseId := "", courseCode := "C", courseName := "N",
    semester := "Semester 1", attrs := [] }

/-- Concrete course module state for Scenario B: collection with
primary ids 1, 3 and 5 and a valid create form. -/
def courseStateB : CourseState :=
  { userRole := "Administrator", activeTab := "view-courses", selectedSemester := "All",
    courses := [cRec 1, cRec 3, cRec 5], filteredCourses := [cRec 1, cRec 3, cRec 5],
    editingCourse := none, popup := popupNone, selectedCourse := none,
    formData := sampleCourseForm, stored := some (StoredContent.wellFormed [cRec 1, cRec 3, cRec 5]) }

/-- A concrete task form whose required fields are filled. -/
def validTaskForm : TaskForm :=
  { taskId := "T001", taskName := "Review Course Materials",
    description := "Review and update", attrs := defaultTaskFormAttrs }

/-- Concrete task module state for a Staff-role actor holding the
sample collection and a valid create form. -/
def staffRoleTaskState : TaskState :=
  { userRole := "Staff", activeTab := "add-task", tasks := sampleTasksData,
    filteredTasks := sampleTasksData, editingTask := none, popup := popupNone,
    selectedTask := none, formData := validTaskForm,
    stored := some (StoredContent.wellFormed sampleTasksData) }

/-- The same task module state viewed by an Administrator. -/
def adminTaskState : TaskState := { staffRoleTaskState with userRole := "Administrator" }

/-- Concrete staff module state for an Administrator holding the
sample collection. -/
def adminStaffState : StaffState :=
  { userRole := "Administrator", currentUserEmail := "", activeTab := "view-staff",
    selectedDepartment := "All", searchQuery := "", staffMembers := sampleStaffData,
    filteredStaff := sampleStaffData, editingStaff := none, popup := popupNone,
    selectedStaff := none, stored := some (StoredContent.wellFormed sampleStaffData) }

/-- The same staff module state viewed by a Staff-role actor. -/
def staffRoleStaffState : StaffState := { adminStaffState with userRole := "Staff" }

/-- The Scenario-B course state viewed by a Staff-role actor. -/
def staffRoleCourseState : CourseState := { courseStateB with userRole := "Staff" }

/-- A draft that carries primary id 1, colliding with an existing
sample record. -/
def dupDraft : StaffDraft :=
  { id := some 1, name := "Dr. New Person", email := "new.person@university.edu",
    department := "Physics", profilePicture := "", attrs := [] }

/-- A draft without an id (the normal create path of the form). -/
def freshDraft : StaffDraft :=
  { id := none, name := "Dr. Fresh Person", email := "fresh.person@university.edu",
    department := "Physics", profilePicture := "", attrs := [] }

theorem le_jsMaxNat {l : List Nat} {y : Nat} (hy : y ∈ l) : y ≤ jsMaxNat l := by
  induction l with
  | nil => cases hy
  | cons x xs ih =>
      rcases List.mem_cons.mp hy with h | h
      · subst h; exact Nat.le_max_left _ _
      · exact Nat.le_trans (ih h) (Nat.le_max_right _ _)

theorem jsMaxNat_mem {l : List Nat} (h : l ≠ []) : jsMaxNat l ∈ l := by
  induction l with
  | nil => exact absurd rfl h
  | cons x xs ih =>
      by_cases hx : xs = []
      · subst hx; simp [jsMaxNat]
      · rcases Nat.le_total x (jsMaxNat xs) with hle | hle
        · have hmax : jsMaxNat (x :: xs) = jsMaxNat xs := by
            simp only [jsMaxNat, List.foldr]
            exact Nat.max_eq_right hle
          rw [hmax]
          exact List.mem_cons_of_mem _ (ih hx)
        · have hmax : jsMaxNat (x :: xs) = x := by
            simp only [jsMaxNat, List.foldr]
            exact Nat.max_eq_left hle
          rw [hmax]
          exact List.mem_cons_self _ _

theorem filterNot_length_countP {α : Type} (l : List α) (p : α → Bool) :
    (l.filter (fun a => !(p a))).length + l.countP p = l.length := by
  induction l with
  | nil => simp
  | cons a t ih =>
      by_cases h : p a = true <;>
        simp [List.filter_cons, List.countP_cons, h] <;> omega

theorem saveBeforeNotifyOk_nil {α : Type} (finalRecords : List α) :
    saveBeforeNotifyOk ([] : List (Evt α)) finalRecords := by
  intro j p hj
  simp at hj

theorem saveBeforeNotifyOk_err {α : Type} (p : Popup) (finalRecords : List α)
    (h : p.kind = "error") : saveBeforeNotifyOk [Evt.notify p] finalRecords := by
  intro j q hj hk
  match j with
  | 0 =>
      simp at hj
      subst hj
      rw [h] at hk
      rcases hk with hk | hk <;> exact absurd hk (by decide)
  | j + 1 => simp at hj

theorem saveBeforeNotifyOk_pair {α : Type} (p : Popup) (l : List α) :
    saveBeforeNotifyOk [Evt.save l, Evt.notify p] l := by
  intro j q hj hk
  match j with
  | 0 => simp at hj
  | 1 => exact ⟨0, Nat.zero_lt_one, rfl⟩
  | j + 2 => simp at hj

/-- C2.  The claim states that a malformed stored value is treated
like an absent key, triggering the reseed path.  This is refuted at a
concrete input: both `loadStaffData` and `loadTasksData` run
`JSON.parse` without a try/catch, so a malformed value raises an
uncaught parse error instead of behaving like the absent-key (reseed)
case. -/
theorem claim_C2_counterexample :
    loadStaffData (some StoredContent.malformed) = Except.error JsError.syntaxError
    ∧ loadTasksData (some StoredContent.malformed) = Except.error JsError.syntaxError
    ∧ loadStaffData (some StoredContent.malformed) ≠ loadStaffData none
    ∧ loadTasksData (some StoredContent.malformed) ≠ loadTasksData none := by
  refine ⟨rfl, rfl, ?_, ?_⟩ <;> simp [loadStaffData, loadTasksData]

/-- C2 (amended).  Load reseeds the fixed sample data and re-persists
it only when the key is absent; a well-formed stored value is loaded
as is; a malformed stored value makes the load propagate the parse
failure, with no reseed and no write. -/
theorem claim_C2_amended :
    loadStaffData none =
      Except.ok { records := sampleStaffData, filtered := sampleStaffData,
                  stored := some (StoredContent.wellFormed sampleStaffData) }
    ∧ (∀ l : List Staff, loadStaffData (some (StoredContent.wellFormed l)) =
        Except.ok { records := l, filtered := l, stored := some (StoredContent.wellFormed l) })
    ∧ loadStaffData (some StoredContent.malformed) = Except.error JsError.syntaxError
    ∧ loadTasksData none =
      Except.ok { records := sampleTasksData, filtered := sampleTasksData,
                  stored := some (StoredContent.wellFormed sampleTasksData) }
    ∧ (∀ l : List TaskRec, loadTasksData (some (StoredContent.wellFormed l)) =
        Except.ok { records := l, filtered := l, stored := some (StoredContent.wellFormed l) })
    ∧ loadTasksData (some StoredContent.malformed) = Except.error JsError.syntaxError :=
  ⟨rfl, fun _ => rfl, rfl, rfl, fun _ => rfl, rfl⟩

/-- C3.  The next primary id is 1 on an empty collection and the
maximum existing id plus one otherwise (gaps below the maximum are not
reused); concretely, a valid create over a collection with ids
1, 3 and 5 assigns id 6. -/
theorem claim_C3_next_primary_id :
    nextPrimaryId [] = 1
    ∧ (∀ ids : List Nat, ids ≠ [] →
        ∃ m, m ∈ ids ∧ nextPrimaryId ids = m + 1 ∧ ∀ y ∈ ids, y ≤ m)
    ∧ (∀ st : CourseState, st.courses.map (fun c => c.id) = [1, 3, 5] →
        jsTrim st.formData.courseCode ≠ "" → jsTrim st.formData.courseName ≠ "" →
        jsTrim st.formData.requiredQualification ≠ "" →
        ∃ c, (handleCourseAdded st).1.courses = st.courses ++ [c] ∧ c.id = 6) := by
  refine ⟨rfl, ?_, ?_⟩
  · intro ids hne
    refine ⟨jsMaxNat ids, jsMaxNat_mem hne, ?_, fun y hy => le_jsMaxNat hy⟩
    have hlen : ids.length > 0 := List.length_pos.mpr hne
    simp [nextPrimaryId, hlen]
  · intro st hmap h1 h2 h3
    have hcond : ¬(jsTrim st.formData.courseCode = "" ∨ jsTrim st.formData.courseName = "" ∨
        jsTrim st.formData.requiredQualification = "") := by
      push_neg
      exact ⟨h1, h2, h3⟩
    simp only [handleCourseAdded, if_neg hcond]
    refine ⟨_, rfl, ?_⟩
    show nextPrimaryId (st.courses.map (fun c => c.id)) = 6
    rw [hmap]
    decide

/-- Witness for C3 at concrete inputs: ids 1, 3, 5 and the concrete
Scenario-B course state. -/
theorem claim_C3_witness :
    (∃ m, m ∈ ([1, 3, 5] : List Nat) ∧ nextPrimaryId [1, 3, 5] = m + 1 ∧
      ∀ y ∈ ([1, 3, 5] : List Nat), y ≤ m)
    ∧ (∃ c, (handleCourseAdded courseStateB).1.courses = courseStateB.courses ++ [c] ∧
        c.id = 6) :=
  ⟨claim_C3_next_primary_id.2.1 [1, 3, 5] (by decide),
   claim_C3_next_primary_id.2.2 courseStateB (by decide) (by decide) (by decide) (by decide)⟩

/-- C7.  The task and course secondary-id generators implement the
claimed rule: first maximal digit run of each existing secondary id
(0 when a record has no digits there), maximum plus one, zero-padded
to width 3, with prefix T for tasks and COURSE for courses; an empty
collection yields T001 and COURSE001, and a mixed collection with ids
T007, banana and T012x9 yields T013. -/
theorem claim_C7_secondary_id :
    (∀ tasks : List TaskRec,
        generateTaskId tasks = nextSecondaryId (tasks.map (fun t => t.taskId)) "T" 3)
    ∧ (∀ courses : List Course,
        generateCourseId courses = nextSecondaryId (courses.map (fun c => c.courseId)) "COURSE" 3)
    ∧ generateTaskId [] = "T001"
    ∧ generateCourseId [] = "COURSE001"
    ∧ generateTaskId
        [{ id := 1, taskId := "T007", taskName := "a", description := "a", attrs := [] },
         { id := 2, taskId := "banana", taskName := "b", description := "b", attrs := [] },
         { id := 3, taskId := "T012x9", taskName := "c", description := "c", attrs := [] }]
        = "T013" := by
  refine ⟨?_, ?_, rfl, rfl, by decide⟩
  · intro tasks
    cases tasks with
    | nil => rfl
    | cons t ts =>
        simp only [generateTaskId, nextSecondaryId, List.map_map]
        rw [if_pos (show (t :: ts).length > 0 by simp)]
        rfl
  · intro courses
    cases courses with
    | nil => rfl
    | cons c cs =>
        simp only [generateCourseId, nextSecondaryId, List.map_map]
        rw [if_pos (show (c :: cs).length > 0 by simp)]
        rfl

theorem lt_nextPrimaryId {l : List Nat} {y : Nat} (hy : y ∈ l) : y < nextPrimaryId l := by
  have h1 : y ≤ jsMaxNat l := le_jsMaxNat hy
  have hlen : l.length > 0 := List.length_pos.mpr (by rintro rfl; cases hy)
  simp only [nextPrimaryId, if_pos hlen]
  omega

/-- C4.  Every valid create (task, course, and staff through the form,
whose submit passes an undefined id on the create path) appends
exactly one record, leaves the prior records unchanged in order as a
prefix, and assigns the new record an id strictly greater than every
prior id. -/
theorem claim_C4_valid_create :
    (∀ st : TaskState, jsTrim st.formData.taskName ≠ "" → jsTrim st.formData.description ≠ "" →
        ∃ t, (handleTaskAdded st).1.tasks = st.tasks ++ [t]
          ∧ (handleTaskAdded st).1.tasks.length = st.tasks.length + 1
          ∧ ∀ t2 ∈ st.tasks, t2.id < t.id)
    ∧ (∀ st : CourseState, jsTrim st.formData.courseCode ≠ "" →
        jsTrim st.formData.courseName ≠ "" → jsTrim st.formData.requiredQualification ≠ "" →
        ∃ c, (handleCourseAdded st).1.courses = st.courses ++ [c]
          ∧ (handleCourseAdded st).1.courses.length = st.courses.length + 1
          ∧ ∀ c2 ∈ st.courses, c2.id < c.id)
    ∧ (∀ (st : StaffState) (f : StaffDraft), jsTrim f.name ≠ "" → jsTrim f.email ≠ "" →
        ∃ s, (addStaffViaForm st f).1.staffMembers = st.staffMembers ++ [s]
          ∧ (addStaffViaForm st f).1.staffMembers.length = st.staffMembers.length + 1
          ∧ ∀ s2 ∈ st.staffMembers, s2.id < s.id) := by
  refine ⟨?_, ?_, ?_⟩
  · intro st h1 h2
    have hcond : ¬(jsTrim st.formData.taskName = "" ∨ jsTrim st.formData.description = "") := by
      push_neg; exact ⟨h1, h2⟩
    simp only [handleTaskAdded, if_neg hcond]
    refine ⟨_, rfl, by simp, ?_⟩
    intro t2 ht2
    show t2.id < nextPrimaryId (st.tasks.map (fun t => t.id))
    exact lt_nextPrimaryId (List.mem_map_of_mem _ ht2)
  · intro st h1 h2 h3
    have hcond : ¬(jsTrim st.formData.courseCode = "" ∨ jsTrim st.formData.courseName = "" ∨
        jsTrim st.formData.requiredQualification = "") := by
      push_neg; exact ⟨h1, h2, h3⟩
    simp only [handleCourseAdded, if_neg hcond]
    refine ⟨_, rfl, by simp, ?_⟩
    intro c2 hc2
    show c2.id < nextPrimaryId (st.courses.map (fun c => c.id))
    exact lt_nextPrimaryId (List.mem_map_of_mem _ hc2)
  · intro st f h1 h2
    have hcond : ¬(jsTrim f.name = "" ∨ jsTrim f.email = "") := by
      push_neg; exact ⟨h1, h2⟩
    simp only [addStaffViaForm, if_neg hcond, handleStaffAdded]
    rw [if_neg (by simp : ¬((none : Option String) = some "cancel"))]
    refine ⟨_, rfl, by simp, ?_⟩
    intro s2 hs2
    show s2.id < nextPrimaryId (st.staffMembers.map (fun s => s.id))
    exact lt_nextPrimaryId (List.mem_map_of_mem _ hs2)

/-- Witness for C4: the valid concrete creates of each module. -/
theorem claim_C4_witness :
    (∃ t, (handleTaskAdded staffRoleTaskState).1.tasks = staffRoleTaskState.tasks ++ [t]
      ∧ (handleTaskAdded staffRoleTaskState).1.tasks.length = staffRoleTaskState.tasks.length + 1
      ∧ ∀ t2 ∈ staffRoleTaskState.tasks, t2.id < t.id)
    ∧ (∃ c, (handleCourseAdded courseStateB).1.courses = courseStateB.courses ++ [c]
      ∧ (handleCourseAdded courseStateB).1.courses.length = courseStateB.courses.length + 1
      ∧ ∀ c2 ∈ courseStateB.courses, c2.id < c.id)
    ∧ (∃ s, (addStaffViaForm adminStaffState freshDraft).1.staffMembers
          = adminStaffState.staffMembers ++ [s]
      ∧ (addStaffViaForm adminStaffState freshDraft).1.staffMembers.length
          = adminStaffState.staffMembers.length + 1
      ∧ ∀ s2 ∈ adminStaffState.staffMembers, s2.id < s.id) :=
  ⟨claim_C4_valid_create.1 staffRoleTaskState (by decide) (by decide),
   claim_C4_valid_create.2.1 courseStateB (by decide) (by decide) (by decide),
   claim_C4_valid_create.2.2 adminStaffState freshDraft (by decide) (by decide)⟩

/-- C5.  A confirmed Administrator delete of an id occurring exactly
once removes exactly that record: the result is an order-preserving
sublist of the prior collection containing precisely the records whose
id differs (each of them the very same record value as before), its
length drops by one, and a Detail selection that referenced the
deleted id is cleared. -/
theorem claim_C5_delete_exact :
    (∀ (st : StaffState) (id : Nat), st.userRole = "Administrator" →
        st.staffMembers.countP (fun s => decide (s.id = id)) = 1 →
        (handleDeleteStaff st true id).1.staffMembers.Sublist st.staffMembers
        ∧ (∀ s, s ∈ (handleDeleteStaff st true id).1.staffMembers ↔
            (s ∈ st.staffMembers ∧ s.id ≠ id))
        ∧ (handleDeleteStaff st true id).1.staffMembers.length + 1 = st.staffMembers.length
        ∧ (∀ sel, st.selectedStaff = some sel → sel.id = id →
            (handleDeleteStaff st true id).1.selectedStaff = none))
    ∧ (∀ (st : TaskState) (id : Nat), st.userRole = "Administrator" →
        st.tasks.countP (fun t => decide (t.id = id)) = 1 →
        (handleDeleteTask st true id).1.tasks.Sublist st.tasks
        ∧ (∀ t, t ∈ (handleDeleteTask st true id).1.tasks ↔ (t ∈ st.tasks ∧ t.id ≠ id))
        ∧ (handleDeleteTask st true id).1.tasks.length + 1 = st.tasks.length
        ∧ (∀ sel, st.selectedTask = some sel → sel.id = id →
            (handleDeleteTask st true id).1.selectedTask = none)) := by
  constructor
  · intro st id hrole hcount
    have hne : ¬(st.userRole ≠ "Administrator") := by simp [hrole]
    have hfun : (fun (s : Staff) => decide (s.id ≠ id))
        = (fun s => !(decide (s.id = id))) := by
      funext s; simp [decide_not]
    refine ⟨?_, ?_, ?_, ?_⟩
    · simp only [handleDeleteStaff, if_neg hne, if_pos rfl]
      exact List.filter_sublist _
    · intro s
      simp only [handleDeleteStaff, if_neg hne, if_pos rfl]
      simp [List.mem_filter]
    · simp only [handleDeleteStaff, if_neg hne, if_pos rfl]
      show (st.staffMembers.filter (fun s => decide (s.id ≠ id))).length + 1
          = st.staffMembers.length
      rw [hfun]
      have hlen := filterNot_length_countP st.staffMembers (fun s => decide (s.id = id))
      omega
    · intro sel hsel hid
      simp only [handleDeleteStaff, if_neg hne, if_pos rfl]
      show (match st.selectedStaff with
            | some sel => if sel.id = id then none else some sel
            | none => none) = none
      rw [hsel]
      simp [hid]
  · intro st id hrole hcount
    have hne : ¬(st.userRole ≠ "Administrator") := by simp [hrole]
    have hfun : (fun (t : TaskRec) => decide (t.id ≠ id))
        = (fun t => !(decide (t.id = id))) := by
      funext t; simp [decide_not]
    refine ⟨?_, ?_, ?_, ?_⟩
    · simp only [handleDeleteTask, if_neg hne, if_pos rfl]
      exact List.filter_sublist _
    · intro t
      simp only [handleDeleteTask, if_neg hne, if_pos rfl]
      simp [List.mem_filter]
    · simp only [handleDeleteTask, if_neg hne, if_pos rfl]
      show (st.tasks.filter (fun t => decide (t.id ≠ id))).length + 1 = st.tasks.length
      rw [hfun]
      have hlen := filterNot_length_countP st.tasks (fun t => decide (t.id = id))
      omega
    · intro sel hsel hid
      simp only [handleDeleteTask, if_neg hne, if_pos rfl]
      show (match st.selectedTask with
            | some sel => if sel.id = id then none else some sel
            | none => none) = none
      rw [hsel]
      simp [hid]

/-- Witness for C5: the Administrator deletes of id 3 over the sample
collections, where id 3 occurs exactly once. -/
theorem claim_C5_witness :
    ((handleDeleteStaff adminStaffState true 3).1.staffMembers.Sublist
        adminStaffState.staffMembers
      ∧ (∀ s, s ∈ (handleDeleteStaff adminStaffState true 3).1.staffMembers ↔
          (s ∈ adminStaffState.staffMembers ∧ s.id ≠ 3))
      ∧ (handleDeleteStaff adminStaffState true 3).1.staffMembers.length + 1
          = adminStaffState.staffMembers.length
      ∧ (∀ sel, adminStaffState.selectedStaff = some sel → sel.id = 3 →
          (handleDeleteStaff adminStaffState true 3).1.selectedStaff = none))
    ∧ ((handleDeleteTask adminTaskState true 3).1.tasks.Sublist
        adminTaskState.tasks
      ∧ (∀ t, t ∈ (handleDeleteTask adminTaskState true 3).1.tasks ↔
          (t ∈ adminTaskState.tasks ∧ t.id ≠ 3))
      ∧ (handleDeleteTask adminTaskState true 3).1.tasks.length + 1
          = adminTaskState.tasks.length
      ∧ (∀ sel, adminTaskState.selectedTask = some sel → sel.id = 3 →
          (handleDeleteTask adminTaskState true 3).1.selectedTask = none)) :=
  ⟨claim_C5_delete_exact.1 adminStaffState 3 rfl (by decide),
   claim_C5_delete_exact.2 adminTaskState 3 rfl (by decide)⟩

/-- C6.  The filtered view is a pure function of the collection and
the criteria (it is a function by construction): an order-preserving
sublist containing exactly the records satisfying the conjunction of
the active predicates — department (or semester) equality unless the
sentinel All disables it, and the case-insensitive name-or-email
substring query unless the trimmed query is empty; with the sentinel
and an empty query the view equals the full collection. -/
theorem claim_C6_filter_conjunction :
    (∀ (dept q : String) (l : List Staff), (filterStaffList dept q l).Sublist l)
    ∧ (∀ (dept q : String) (l : List Staff) (r : Staff),
        r ∈ filterStaffList dept q l ↔
          (r ∈ l ∧ (dept = "All" ∨ r.department = dept)
            ∧ (jsTrim q = "" ∨
               (jsIncludes (jsToLower r.name) (jsToLower q)
                 || jsIncludes (jsToLower r.email) (jsToLower q)) = true)))
    ∧ (∀ (q : String) (l : List Staff), jsTrim q = "" → filterStaffList "All" q l = l)
    ∧ (∀ (sem : String) (l : List Course), (filterCourseList sem l).Sublist l)
    ∧ (∀ (sem : String) (l : List Course) (r : Course),
        r ∈ filterCourseList sem l ↔ (r ∈ l ∧ (sem = "All" ∨ r.semester = sem)))
    ∧ (∀ l : List Course, filterCourseList "All" l = l) := by
  refine ⟨?_, ?_, ?_, ?_, ?_, ?_⟩
  · intro dept q l
    simp only [filterStaffList]
    by_cases h1 : dept = "All" <;> by_cases h2 : jsTrim q = "" <;> simp [h1, h2]
  · intro dept q l r
    simp only [filterStaffList]
    by_cases h1 : dept = "All" <;> by_cases h2 : jsTrim q = "" <;>
      · simp [h1, h2, List.mem_filter, and_assoc]
        try tauto
  · intro q l hq
    simp [filterStaffList, hq]
  · intro sem l
    simp only [filterCourseList]
    by_cases h1 : sem = "All" <;> simp [h1]
  · intro sem l r
    simp only [filterCourseList]
    by_cases h1 : sem = "All" <;> simp [h1, List.mem_filter]
  · intro l
    simp [filterCourseList]

/-- Witness for C6: the sentinel department with an empty query over
the sample staff collection returns it unchanged. -/
theorem claim_C6_witness :
    filterStaffList "All" "" sampleStaffData = sampleStaffData :=
  claim_C6_filter_conjunction.2.2.1 "" sampleStaffData (by decide)

/-- C8.  In every mutating handler of every module (create, update,
delete, upload-merge), every success or delete notification in the
effect trace is strictly preceded by the save, and the saved value is
exactly the collection the handler left in the state; permission and
validation failures notify without saving, and are not success or
delete notifications. -/
theorem claim_C8_save_before_notify :
    (∀ (st : StaffState) (d : Option StaffDraft) (a : Option String),
        saveBeforeNotifyOk (handleStaffAdded st d a).2 (handleStaffAdded st d a).1.staffMembers)
    ∧ (∀ (st : StaffState) (u : Staff),
        saveBeforeNotifyOk (handleStaffUpdated st u).2 (handleStaffUpdated st u).1.staffMembers)
    ∧ (∀ (st : StaffState) (c : Bool) (id : Nat),
        saveBeforeNotifyOk (handleDeleteStaff st c id).2
          (handleDeleteStaff st c id).1.staffMembers)
    ∧ (∀ (st : StaffState) (file : Option JsFile) (res : String),
        saveBeforeNotifyOk (handleProfilePictureUpload st file res).2
          (handleProfilePictureUpload st file res).1.staffMembers)
    ∧ (∀ st : TaskState,
        saveBeforeNotifyOk (handleTaskAdded st).2 (handleTaskAdded st).1.tasks)
    ∧ (∀ (st : TaskState) (e : TaskRec),
        saveBeforeNotifyOk (handleTaskUpdated st e).2 (handleTaskUpdated st e).1.tasks)
    ∧ (∀ (st : TaskState) (c : Bool) (id : Nat),
        saveBeforeNotifyOk (handleDeleteTask st c id).2 (handleDeleteTask st c id).1.tasks)
    ∧ (∀ st : CourseState,
        saveBeforeNotifyOk (handleCourseAdded st).2 (handleCourseAdded st).1.courses)
    ∧ (∀ (st : CourseState) (e : Course),
        saveBeforeNotifyOk (handleCourseUpdated st e).2 (handleCourseUpdated st e).1.courses)
    ∧ (∀ (st : CourseState) (c : Bool) (id : Nat),
        saveBeforeNotifyOk (handleDeleteCourse st c id).2
          (handleDeleteCourse st c id).1.courses) := by
  refine ⟨?_, ?_, ?_, ?_, ?_, ?_, ?_, ?_, ?_, ?_⟩
  · intro st d a
    unfold handleStaffAdded
    split
    · exact saveBeforeNotifyOk_nil _
    · split
      · exact saveBeforeNotifyOk_nil _
      · exact saveBeforeNotifyOk_pair _ _
  · intro st u
    exact saveBeforeNotifyOk_pair _ _
  · intro st c id
    unfold handleDeleteStaff
    split
    · exact saveBeforeNotifyOk_err _ _ rfl
    · split
      · exact saveBeforeNotifyOk_pair _ _
      · exact saveBeforeNotifyOk_nil _
  · intro st file res
    unfold handleProfilePictureUpload
    repeat' split
    all_goals
      first
        | exact saveBeforeNotifyOk_err _ _ rfl
        | exact saveBeforeNotifyOk_pair _ _
        | exact saveBeforeNotifyOk_nil _
  · intro st
    unfold handleTaskAdded
    split
    · exact saveBeforeNotifyOk_err _ _ rfl
    · exact saveBeforeNotifyOk_pair _ _
  · intro st e
    unfold handleTaskUpdated
    split
    · exact saveBeforeNotifyOk_err _ _ rfl
    · exact saveBeforeNotifyOk_pair _ _
  · intro st c id
    unfold handleDeleteTask
    split
    · exact saveBeforeNotifyOk_err _ _ rfl
    · split
      · exact saveBeforeNotifyOk_pair _ _
      · exact saveBeforeNotifyOk_nil _
  · intro st
    unfold handleCourseAdded
    split
    · exact saveBeforeNotifyOk_err _ _ rfl
    · exact saveBeforeNotifyOk_pair _ _
  · intro st e
    unfold handleCourseUpdated
    split
    · exact saveBeforeNotifyOk_err _ _ rfl
    · exact saveBeforeNotifyOk_pair _ _
  · intro st c id
    unfold handleDeleteCourse
    split
    · exact saveBeforeNotifyOk_err _ _ rfl
    · split
      · exact saveBeforeNotifyOk_pair _ _
      · exact saveBeforeNotifyOk_nil _

/-- C9.  The staff create handler generates a fresh id only when the
incoming draft id is absent or 0 (JavaScript falsy); a draft carrying
any other id is appended with that id unchanged and without any
uniqueness check, so a create can introduce a duplicate primary id —
concretely, adding a draft with id 1 over the sample collection leaves
two records with id 1. -/
theorem claim_C9_trusted_draft_id :
    (∀ (st : StaffState) (d : StaffDraft) (n : Nat), d.id = some n → n ≠ 0 →
        (handleStaffAdded st (some d) none).1.staffMembers = st.staffMembers ++ [mkStaff d n])
    ∧ (∀ (st : StaffState) (d : StaffDraft), (d.id = none ∨ d.id = some 0) →
        (handleStaffAdded st (some d) none).1.staffMembers
          = st.staffMembers ++ [mkStaff d (nextPrimaryId (st.staffMembers.map (fun s => s.id)))])
    ∧ (handleStaffAdded adminStaffState (some dupDraft) none).1.staffMembers.countP
        (fun s => decide (s.id = 1)) = 2 := by
  have hcancel : ¬((none : Option String) = some "cancel") := by simp
  refine ⟨?_, ?_, by decide⟩
  · intro st d n hid hn
    simp only [handleStaffAdded, if_neg hcancel, hid]
    rw [if_neg hn]
  · intro st d hid
    rcases hid with hid | hid <;>
      · simp only [handleStaffAdded, if_neg hcancel, hid]
        try simp

/-- Witness for C9: the colliding draft with id 1 and the id-free
draft over the sample collection. -/
theorem claim_C9_witness :
    (handleStaffAdded adminStaffState (some dupDraft) none).1.staffMembers
      = adminStaffState.staffMembers ++ [mkStaff dupDraft 1]
    ∧ (handleStaffAdded adminStaffState (some freshDraft) none).1.staffMembers
      = adminStaffState.staffMembers
          ++ [mkStaff freshDraft
                (nextPrimaryId (adminStaffState.staffMembers.map (fun s => s.id)))] :=
  ⟨claim_C9_trusted_draft_id.1 adminStaffState dupDraft 1 rfl (by decide),
   claim_C9_trusted_draft_id.2.1 adminStaffState freshDraft (Or.inl rfl)⟩

/-- C10.  A confirmed Administrator delete of an id matching no record
leaves the collection equal to the prior one element for element, yet
still re-persists it and still emits the delete-kind notification. -/
theorem claim_C10_delete_no_match :
    (∀ (st : StaffState) (id : Nat), st.userRole = "Administrator" →
        (∀ s ∈ st.staffMembers, s.id ≠ id) →
        (handleDeleteStaff st true id).1.staffMembers = st.staffMembers
        ∧ (handleDeleteStaff st true id).2
            = [Evt.save st.staffMembers,
               Evt.notify { visible := true, message := "Record deleted", kind := "delete" }]
        ∧ (handleDeleteStaff st true id).1.stored
            = some (StoredContent.wellFormed st.staffMembers)
        ∧ (handleDeleteStaff st true id).1.popup.kind = "delete")
    ∧ (∀ (st : TaskState) (id : Nat), st.userRole = "Administrator" →
        (∀ t ∈ st.tasks, t.id ≠ id) →
        (handleDeleteTask st true id).1.tasks = st.tasks
        ∧ (handleDeleteTask st true id).2
            = [Evt.save st.tasks,
               Evt.notify { visible := true, message := "Task deleted successfully!",
                            kind := "delete" }]
        ∧ (handleDeleteTask st true id).1.stored = some (StoredContent.wellFormed st.tasks)
        ∧ (handleDeleteTask st true id).1.popup.kind = "delete") := by
  constructor
  · intro st id hrole hmiss
    have hne : ¬(st.userRole ≠ "Administrator") := by simp [hrole]
    have hfilter : st.staffMembers.filter (fun s => decide (s.id ≠ id)) = st.staffMembers :=
      List.filter_eq_self.mpr (fun s hs => by simp [hmiss s hs])
    refine ⟨?_, ?_, ?_, ?_⟩ <;>
      simp only [handleDeleteStaff, if_neg hne, if_pos rfl] <;>
      simp [hfilter] <;>
      exact fun a ha => hmiss a ha
  · intro st id hrole hmiss
    have hne : ¬(st.userRole ≠ "Administrator") := by simp [hrole]
    have hfilter : st.tasks.filter (fun t => decide (t.id ≠ id)) = st.tasks :=
      List.filter_eq_self.mpr (fun t ht => by simp [hmiss t ht])
    refine ⟨?_, ?_, ?_, ?_⟩ <;>
      simp only [handleDeleteTask, if_neg hne, if_pos rfl] <;>
      simp [hfilter] <;>
      exact fun a ha => hmiss a ha

/-- Witness for C10: deleting the unused id 99 from the sample staff
and task collections. -/
theorem claim_C10_witness :
    ((handleDeleteStaff adminStaffState true 99).1.staffMembers
        = adminStaffState.staffMembers
      ∧ (handleDeleteStaff adminStaffState true 99).2
          = [Evt.save adminStaffState.staffMembers,
             Evt.notify { visible := true, message := "Record deleted", kind := "delete" }]
      ∧ (handleDeleteStaff adminStaffState true 99).1.stored
          = some (StoredContent.wellFormed adminStaffState.staffMembers)
      ∧ (handleDeleteStaff adminStaffState true 99).1.popup.kind = "delete")
    ∧ ((handleDeleteTask adminTaskState true 99).1.tasks = adminTaskState.tasks
      ∧ (handleDeleteTask adminTaskState true 99).2
          = [Evt.save adminTaskState.tasks,
             Evt.notify { visible := true, message := "Task deleted successfully!",
                          kind := "delete" }]
      ∧ (handleDeleteTask adminTaskState true 99).1.stored
          = some (StoredContent.wellFormed adminTaskState.tasks)
      ∧ (handleDeleteTask adminTaskState true 99).1.popup.kind = "delete") :=
  ⟨claim_C10_delete_no_match.1 adminStaffState 99 rfl (by decide),
   claim_C10_delete_no_match.2 adminTaskState 99 rfl (by decide)⟩

/-- C1 counterexample.  The claim says a Staff-role actor invoking
create always gets a PermissionError notification and no mutation.
Concretely, a Staff-role invocation of the task create handler with a
valid form mutates the collection, persists it, and emits a success
notification: the create handler performs no role check. -/
theorem claim_C1_counterexample :
    staffRoleTaskState.userRole = "Staff"
    ∧ (handleTaskAdded staffRoleTaskState).1.tasks ≠ staffRoleTaskState.tasks
    ∧ (handleTaskAdded staffRoleTaskState).1.tasks.length
        = staffRoleTaskState.tasks.length + 1
    ∧ (handleTaskAdded staffRoleTaskState).1.popup.kind = "success"
    ∧ (handleTaskAdded staffRoleTaskState).1.popup.kind ≠ "error"
    ∧ (handleTaskAdded staffRoleTaskState).1.stored ≠ staffRoleTaskState.stored :=
  ⟨rfl, by decide, by decide, by decide, by decide, by decide⟩

/-- C1 (amended).  The delete handlers and the edit-entry handlers of
all three modules are role-gated in the handler: a non-Administrator
invocation emits the PermissionError notification, issues no save, and
leaves the collection and the persisted value unchanged.  The create
and update handlers contain no role check at all: their result is
identical for every role apart from the echoed role field, so a
Staff-role create or update mutates and persists exactly as an
Administrator one — for create and update the gate exists only in the
UI, which hides the form from non-administrators. -/
theorem claim_C1_amended :
    (∀ (st : StaffState) (c : Bool) (id : Nat), st.userRole ≠ "Administrator" →
        (handleDeleteStaff st c id).1.staffMembers = st.staffMembers
        ∧ (handleDeleteStaff st c id).1.stored = st.stored
        ∧ (handleDeleteStaff st c id).1.popup.kind = "error"
        ∧ (handleDeleteStaff st c id).2
            = [Evt.notify ⟨true,
                "You do not have permission to delete staff members.", "error"⟩])
    ∧ (∀ (st : TaskState) (c : Bool) (id : Nat), st.userRole ≠ "Administrator" →
        (handleDeleteTask st c id).1.tasks = st.tasks
        ∧ (handleDeleteTask st c id).1.stored = st.stored
        ∧ (handleDeleteTask st c id).1.popup.kind = "error"
        ∧ (handleDeleteTask st c id).2
            = [Evt.notify ⟨true,
                "You do not have permission to delete tasks.", "error"⟩])
    ∧ (∀ (st : CourseState) (c : Bool) (id : Nat), st.userRole ≠ "Administrator" →
        (handleDeleteCourse st c id).1.courses = st.courses
        ∧ (handleDeleteCourse st c id).1.stored = st.stored
        ∧ (handleDeleteCourse st c id).1.popup.kind = "error"
        ∧ (handleDeleteCourse st c id).2
            = [Evt.notify ⟨true,
                "You do not have permission to delete courses.", "error"⟩])
    ∧ (∀ (st : StaffState) (s : Staff), st.userRole ≠ "Administrator" →
        (handleEditStaff st s).1.staffMembers = st.staffMembers
        ∧ (handleEditStaff st s).1.stored = st.stored
        ∧ (handleEditStaff st s).1.editingStaff = st.editingStaff
        ∧ (handleEditStaff st s).1.popup.kind = "error")
    ∧ (∀ (st : TaskState) (t : TaskRec), st.userRole ≠ "Administrator" →
        (handleEditTask st t).1.tasks = st.tasks
        ∧ (handleEditTask st t).1.stored = st.stored
        ∧ (handleEditTask st t).1.editingTask = st.editingTask
        ∧ (handleEditTask st t).1.popup.kind = "error")
    ∧ (∀ (st : CourseState) (cr : Course), st.userRole ≠ "Administrator" →
        (handleEditCourse st cr).1.courses = st.courses
        ∧ (handleEditCourse st cr).1.stored = st.stored
        ∧ (handleEditCourse st cr).1.editingCourse = st.editingCourse
        ∧ (handleEditCourse st cr).1.popup.kind = "error")
    ∧ (∀ (st : TaskState) (r : String),
        (handleTaskAdded { st with userRole := r }).1
            = { (handleTaskAdded st).1 with userRole := r }
        ∧ (handleTaskAdded { st with userRole := r }).2 = (handleTaskAdded st).2)
    ∧ (∀ (st : TaskState) (e : TaskRec) (r : String),
        (handleTaskUpdated { st with userRole := r } e).1
            = { (handleTaskUpdated st e).1 with userRole := r }
        ∧ (handleTaskUpdated { st with userRole := r } e).2 = (handleTaskUpdated st e).2)
    ∧ (∀ (st : CourseState) (r : String),
        (handleCourseAdded { st with userRole := r }).1
            = { (handleCourseAdded st).1 with userRole := r }
        ∧ (handleCourseAdded { st with userRole := r }).2 = (handleCourseAdded st).2)
    ∧ (∀ (st : CourseState) (e : Course) (r : String),
        (handleCourseUpdated { st with userRole := r } e).1
            = { (handleCourseUpdated st e).1 with userRole := r }
        ∧ (handleCourseUpdated { st with userRole := r } e).2 = (handleCourseUpdated st e).2)
    ∧ (∀ (st : StaffState) (d : Option StaffDraft) (a : Option String) (r : String),
        (handleStaffAdded { st with userRole := r } d a).1
            = { (handleStaffAdded st d a).1 with userRole := r }
        ∧ (handleStaffAdded { st with userRole := r } d a).2 = (handleStaffAdded st d a).2)
    ∧ (∀ (st : StaffState) (u : Staff) (r : String),
        (handleStaffUpdated { st with userRole := r } u).1
            = { (handleStaffUpdated st u).1 with userRole := r }
        ∧ (handleStaffUpdated { st with userRole := r } u).2 = (handleStaffUpdated st u).2) := by
  refine ⟨?_, ?_, ?_, ?_, ?_, ?_, ?_, ?_, ?_, ?_, ?_, ?_⟩
  · intro st c id h
    refine ⟨?_, ?_, ?_, ?_⟩ <;> simp only [handleDeleteStaff, if_pos h]
  · intro st c id h
    refine ⟨?_, ?_, ?_, ?_⟩ <;> simp only [handleDeleteTask, if_pos h]
  · intro st c id h
    refine ⟨?_, ?_, ?_, ?_⟩ <;> simp only [handleDeleteCourse, if_pos h]
  · intro st s h
    refine ⟨?_, ?_, ?_, ?_⟩ <;> simp only [handleEditStaff, if_pos h]
  · intro st t h
    refine ⟨?_, ?_, ?_, ?_⟩ <;> simp only [handleEditTask, if_pos h]
  · intro st cr h
    refine ⟨?_, ?_, ?_, ?_⟩ <;> simp only [handleEditCourse, if_pos h]
  · intro st r
    by_cases h : jsTrim st.formData.taskName = "" ∨ jsTrim st.formData.description = "" <;>
      constructor <;> simp [handleTaskAdded, h]
  · intro st e r
    by_cases h : jsTrim st.formData.taskName = "" ∨ jsTrim st.formData.description = "" <;>
      constructor <;> simp [handleTaskUpdated, h]
  · intro st r
    by_cases h : jsTrim st.formData.courseCode = "" ∨ jsTrim st.formData.courseName = "" ∨
        jsTrim st.formData.requiredQualification = "" <;>
      constructor <;> simp [handleCourseAdded, h]
  · intro st e r
    by_cases h : jsTrim st.formData.courseCode = "" ∨ jsTrim st.formData.courseName = "" ∨
        jsTrim st.formData.requiredQualification = "" <;>
      constructor <;> simp [handleCourseUpdated, h]
  · intro st d a r
    by_cases h : a = some "cancel"
    · constructor <;> simp [handleStaffAdded, h]
    · cases d <;> constructor <;> simp [handleStaffAdded, h]
  · intro st u r
    constructor <;> simp [handleStaffUpdated]

/-- Witness for C1 (amended): the gated delete and edit of each module
invoked by the Staff-role states. -/
theorem claim_C1_amended_witness :
    ((handleDeleteStaff staffRoleStaffState true 1).1.staffMembers
        = staffRoleStaffState.staffMembers
      ∧ (handleDeleteStaff staffRoleStaffState true 1).1.stored = staffRoleStaffState.stored
      ∧ (handleDeleteStaff staffRoleStaffState true 1).1.popup.kind = "error"
      ∧ (handleDeleteStaff staffRoleStaffState true 1).2
          = [Evt.notify ⟨true,
              "You do not have permission to delete staff members.", "error"⟩])
    ∧ ((handleDeleteTask staffRoleTaskState true 1).1.tasks = staffRoleTaskState.tasks
      ∧ (handleDeleteTask staffRoleTaskState true 1).1.stored = staffRoleTaskState.stored
      ∧ (handleDeleteTask staffRoleTaskState true 1).1.popup.kind = "error"
      ∧ (handleDeleteTask staffRoleTaskState true 1).2
          = [Evt.notify ⟨true,
              "You do not have permission to delete tasks.", "error"⟩])
    ∧ ((handleDeleteCourse staffRoleCourseState true 1).1.courses
        = staffRoleCourseState.courses
      ∧ (handleDeleteCourse staffRoleCourseState true 1).1.stored
          = staffRoleCourseState.stored
      ∧ (handleDeleteCourse staffRoleCourseState true 1).1.popup.kind = "error"
      ∧ (handleDeleteCourse staffRoleCourseState true 1).2
          = [Evt.notify ⟨true,
              "You do not have permission to delete courses.", "error"⟩]) :=
  ⟨claim_C1_amended.1 staffRoleStaffState true 1 (by decide),
   claim_C1_amended.2.1 staffRoleTaskState true 1 (by decide),
   claim_C1_amended.2.2.1 staffRoleCourseState true 1 (by decide)⟩
